import Mathlib

/-!
Shallow embedding of the page layer of the alt buffer cache
(src/buffer_cache/alt/page.cc): the page_t state machine, its three load
coroutines, the page_acq_t and page_ptr_t handles, and the evictor-facing
bookkeeping.  Machine integers are modelled as Nat, reduced mod 2^64 where
the source uses uint64_t arithmetic.  Fatal conditions (crash/rassert) are
modelled as a None/crashed result.  The external evicter_t is not part of
src/, so its interface is modelled from the spec where noted.
-/

namespace Alt

/-- Modulus of uint64_t arithmetic used for access times. -/
def u64Mod : Nat := 2 ^ 64

/-- A standard_block_token_t reference.  The only attribute the page layer
reads is block_size().ser_value(), modelled as blockSize. -/
structure BlockToken where
  blockSize : Nat
deriving DecidableEq

/-- Modelled from the spec: the eviction bags maintained by the external
evicter_t (its code is not under src/).  A page with a load in flight or
with waiters is unevictable (the not-yet-loaded and unevictable-loaded
bags of the spec are both the unevictable category); a loaded page with no
waiters is evictable, disk-backed when it holds a block token; a page
whose buffer was dropped by evict_self sits in the evicted category until
it is re-loaded. -/
inductive EvictionBag where
  | unevictable
  | evictableDiskBacked
  | evictableUnbacked
  | evicted
deriving DecidableEq

/-- The observable state of one page_t (src/buffer_cache/alt/page.cc):
ser_buf_size_, buf_ (the buffer contents as a byte list), block_token_,
access_time_, snapshot_refcount_, waiters_ (page_acq_t identifiers in list
order), destroy_ptr_ (true iff the cancel flag of a load task is installed,
i.e. destroy_ptr_ != NULL), and the evictor bag currently recording the
page. -/
structure PageState where
  serBufSize : Nat
  buf : Option (List Nat)
  blockToken : Option BlockToken
  accessTime : Nat
  snapshotRefcount : Nat
  waiters : List Nat
  destroyPtr : Bool
  bag : EvictionBag
deriving DecidableEq

/-- Modelled from the spec: the evicter_t state the page layer observes, a
monotone uint64 access-time counter starting at INITIAL_ACCESS_TIME. -/
structure EvicterState where
  initialAccessTime : Nat
  accessTimeCounter : Nat
deriving DecidableEq

/-- Modelled from the spec: evicter_t::next_access_time() -> u64, the
incremented counter in wrapping 64-bit arithmetic. -/
def EvicterState.nextAccessTime (e : EvicterState) : Nat × EvicterState :=
  let t := (e.accessTimeCounter + 1) % u64Mod
  (t, { e with accessTimeCounter := t })

/-- READ_AHEAD_ACCESS_TIME = evicter_t::INITIAL_ACCESS_TIME - 1, computed
in uint64_t (wrapping) arithmetic as in page.cc line 13. -/
def READ_AHEAD_ACCESS_TIME (initialAccessTime : Nat) : Nat :=
  (initialAccessTime + (u64Mod - 1)) % u64Mod

/-- Modelled from the spec: evicter_t::correct_eviction_category — the bag
a page belongs in is a pure function of (buffer present, block token
present, waiters empty, load in flight): loading pages and pages with
waiters are unevictable; an unloaded page with neither is evicted; a
loaded one is evictable, disk-backed iff it holds a token. -/
def correct_eviction_category (p : PageState) : EvictionBag :=
  if p.destroyPtr || !p.waiters.isEmpty then .unevictable
  else if p.buf.isNone then .evicted
  else if p.blockToken.isSome then .evictableDiskBacked
  else .evictableUnbacked

/-- page_t::page_t(block_id_t, page_cache_t*): cold load.  Takes its access
time from next_access_time, starts with snapshot_refcount_ 0, registers in
the not-yet-loaded (unevictable) bag, and spawns load_with_block_id with
spawn_now_dangerously, which installs destroy_ptr_ before its first
suspension — so at the first observable moment the cancel flag is set. -/
def page_from_block_id (e : EvicterState) : PageState × EvicterState :=
  let r := e.nextAccessTime
  ({ serBufSize := 0, buf := none, blockToken := none, accessTime := r.1,
     snapshotRefcount := 0, waiters := [], destroyPtr := true,
     bag := .unevictable }, r.2)

/-- page_t::page_t(block_size_t, scoped_malloc_t, page_cache_t*): fresh
unbacked page from an in-memory buffer; registered with
add_to_evictable_unbacked. -/
def page_from_buf (e : EvicterState) (blockSizeSer : Nat) (b : List Nat) :
    PageState × EvicterState :=
  let r := e.nextAccessTime
  ({ serBufSize := blockSizeSer, buf := some b, blockToken := none,
     accessTime := r.1, snapshotRefcount := 0, waiters := [],
     destroyPtr := false, bag := .evictableUnbacked }, r.2)

/-- page_t::page_t(scoped_malloc_t, counted_t of block token, page_cache_t*):
read-ahead page.  ser_buf_size_ comes from the block size of the token,
access_time_ is the READ_AHEAD_ACCESS_TIME sentinel, and the page is
registered with add_to_evictable_disk_backed. -/
def page_from_buf_and_token (e : EvicterState) (b : List Nat)
    (tok : BlockToken) : PageState × EvicterState :=
  ({ serBufSize := tok.blockSize, buf := some b, blockToken := some tok,
     accessTime := READ_AHEAD_ACCESS_TIME e.initialAccessTime,
     snapshotRefcount := 0, waiters := [], destroyPtr := false,
     bag := .evictableDiskBacked }, e)

/-- page_t::page_t(page_t*, page_cache_t*): the copy-on-write constructor
used by make_copy.  Same shape as the cold load: not-yet-loaded bag, and
load_from_copyee installs destroy_ptr_ before its first suspension. -/
def page_from_copyee (e : EvicterState) : PageState × EvicterState :=
  let r := e.nextAccessTime
  ({ serBufSize := 0, buf := none, blockToken := none, accessTime := r.1,
     snapshotRefcount := 0, waiters := [], destroyPtr := true,
     bag := .unevictable }, r.2)

/-- page_t::~page_t(): with a load outstanding (destroy_ptr_ != NULL) the
destructor sets the task-local cancel flag to true; otherwise the flag (if
any) is left as it was. -/
def page_destructor_cancel_flag (p : PageState) (taskFlag : Bool) : Bool :=
  if p.destroyPtr then true else taskFlag

/-- page_t::add_snapshotter(): increment snapshot_refcount_. -/
def add_snapshotter (p : PageState) : PageState :=
  { p with snapshotRefcount := p.snapshotRefcount + 1 }

/-- An event of the destruction path of page_t::remove_snapshotter. -/
inductive DtorEvent where
  | removePageFromBag
  | deletePage
deriving DecidableEq

/-- page_t::remove_snapshotter(page_cache):
rassert(snapshot_refcount_ > 0) — calling it at zero is fatal (none);
otherwise decrement.  On reaching zero the code rasserts waiters_.empty(),
then calls evicter().remove_page(this) and delete this, in that order (the
event list); the page is gone (first component none).  Otherwise the page
survives with the decremented count. -/
def remove_snapshotter (p : PageState) :
    Option (Option PageState × List DtorEvent) :=
  if p.snapshotRefcount = 0 then none
  else
    let n := p.snapshotRefcount - 1
    if n = 0 then
      if p.waiters.isEmpty then
        some (none, [.removePageFromBag, .deletePage])
      else none
    else some (some { p with snapshotRefcount := n }, [])

/-- page_t::pulse_waiters_or_make_evictable(page_cache):
rassert(page_is_in_unevictable_bag) — fatal if the recorded bag is not the
unevictable one.  With no waiters the evictor moves the page from the
unevictable bag to its correct (evictable) bag; with waiters every waiter
is pulsed in list order (the returned list) and the bag is untouched. -/
def pulse_waiters_or_make_evictable (p : PageState) :
    Option (PageState × List Nat) :=
  if p.bag ≠ .unevictable then none
  else if p.waiters.isEmpty then
    some ({ p with bag := correct_eviction_category p }, [])
  else some (p, p.waiters)

/-- The outcome page_t::add_waiter reports back: the waiter was pulsed
immediately, a load was already in flight, or a load-using-block-token
task was dispatched. -/
inductive AddWaiterOutcome where
  | pulsed
  | loadAlreadyInFlight
  | dispatchedLoad
deriving DecidableEq

/-- The state page_t::add_waiter leaves before branching: the acquisition
appended to waiters_ by push_back, then
change_to_correct_eviction_bag(old_bag, this). -/
def add_waiter_listed (p : PageState) (acq : Nat) : PageState :=
  let p1 := { p with waiters := p.waiters ++ [acq] }
  { p1 with bag := correct_eviction_category p1 }

/-- page_t::add_waiter(acq): append acq and re-bag, then: buffer present →
pulse the ready signal of acq; else load in flight → nothing; else token
present → spawn_now_dangerously(load_using_block_token), which installs
destroy_ptr_ before its first suspension; else
crash("An unloaded block is not in a loadable state."). -/
def add_waiter (p : PageState) (acq : Nat) :
    Option (PageState × AddWaiterOutcome) :=
  let p2 := add_waiter_listed p acq
  if p2.buf.isSome then some (p2, .pulsed)
  else if p2.destroyPtr then some (p2, .loadAlreadyInFlight)
  else if p2.blockToken.isSome then
    some ({ p2 with destroyPtr := true }, .dispatchedLoad)
  else none

/-- page_t::remove_waiter(acq): remove acq from waiters_ and re-bag;
rassert(snapshot_refcount_ > 0) is fatal when the count is zero. -/
def remove_waiter (p : PageState) (acq : Nat) : Option PageState :=
  let p1 := { p with waiters := p.waiters.erase acq }
  let p2 := { p1 with bag := correct_eviction_category p1 }
  if p2.snapshotRefcount = 0 then none else some p2

/-- page_t::evict_self(): rasserts waiters_.empty(), block_token_.has() and
buf_.has() (fatal when violated), then drops the buffer and nothing
else. -/
def evict_self (p : PageState) : Option PageState :=
  if !p.waiters.isEmpty then none
  else if p.blockToken.isNone then none
  else if p.buf.isNone then none
  else some { p with buf := none }

/-- Modelled from the spec: the eviction step driven by the evictor (its
code is not under src/) — it picks a page recorded in the evictable
disk-backed bag, calls page_t::evict_self, and moves the page to the
evicted bag for its new buffer-less state. -/
def evicter_evict_page (p : PageState) : Option PageState :=
  if p.bag ≠ .evictableDiskBacked then none
  else (evict_self p).map (fun q => { q with bag := .evicted })

/-- page_t::get_page_buf(page_cache): rassert(buf_.has()) — fatal without a
buffer — then refresh access_time_ from next_access_time and return the
buffer contents. -/
def get_page_buf (e : EvicterState) (p : PageState) :
    Option (PageState × List Nat × EvicterState) :=
  match p.buf with
  | none => none
  | some b =>
    let r := e.nextAccessTime
    some ({ p with accessTime := r.1 }, b, r.2)

/-- page_t::reset_block_token(): rassert(!waiters_.empty()) — the page must
be unevictable — then drop block_token_. -/
def reset_block_token (p : PageState) : Option PageState :=
  if p.waiters.isEmpty then none
  else some { p with blockToken := none }

/-- page_acq_t::get_buf_read() after buf_ready_signal_ has been pulsed:
just page_t::get_page_buf. -/
def get_buf_read (e : EvicterState) (p : PageState) :
    Option (PageState × List Nat × EvicterState) :=
  get_page_buf e p

/-- page_acq_t::get_buf_write() after buf_ready_signal_ has been pulsed:
page_t::reset_block_token then page_t::get_page_buf. -/
def get_buf_write (e : EvicterState) (p : PageState) :
    Option (PageState × List Nat × EvicterState) :=
  (reset_block_token p).bind (get_page_buf e)

/-- What a load coroutine does when it resumes after its final suspension:
it returned without reading or writing any field of its page (the cancel
flag was true), it published the buffer into the page and got back the
pulsed waiters, or it tripped a fatal rassert. -/
inductive LoadOutcome where
  | cancelled
  | published (p : PageState) (pulsedWaiters : List Nat)
  | crashed
deriving DecidableEq

/-- page_t::load_with_block_id, resumed after the return thread migration:
check the task-local page_destroyed flag once and return when it is true;
otherwise rassert !block_token_.has() and !buf_.has(), publish
ser_buf_size_, the read buffer and the token resolved by index_read, clear
destroy_ptr_, report the loaded size to the evictor, and run
pulse_waiters_or_make_evictable. -/
def load_with_block_id_resume (pageDestroyed : Bool) (p : PageState)
    (readBuf : List Nat) (tok : BlockToken) : LoadOutcome :=
  if pageDestroyed then .cancelled
  else if p.blockToken.isSome then .crashed
  else if p.buf.isSome then .crashed
  else
    let p1 := { p with serBufSize := tok.blockSize, buf := some readBuf,
                       blockToken := some tok, destroyPtr := false }
    match pulse_waiters_or_make_evictable p1 with
    | none => .crashed
    | some (p2, ws) => .published p2 ws

/-- page_t::load_from_copyee, resumed after the ready signal of the copyee:
check the task-local page_destroyed flag once and fall out when it is
true; otherwise copy ser_buf_size bytes of the copyee buffer into a
fresh allocation, publish it, clear destroy_ptr_, and run
pulse_waiters_or_make_evictable.  The copyee buffer must be present
(rassert(copyee->buf_.has())), which its waited-on ready signal
guarantees. -/
def load_from_copyee_resume (pageDestroyed : Bool) (p : PageState)
    (copyeeSerBufSize : Nat) (copyeeBuf : List Nat) : LoadOutcome :=
  if pageDestroyed then .cancelled
  else
    let p1 := { p with serBufSize := copyeeSerBufSize,
                       buf := some (copyeeBuf.take copyeeSerBufSize),
                       destroyPtr := false }
    match pulse_waiters_or_make_evictable p1 with
    | none => .crashed
    | some (p2, ws) => .published p2 ws

/-- page_t::load_using_block_token, resumed after the return thread
migration: check the task-local page_destroyed flag once and return when
it is true; otherwise rassert that block_token_ still equals the token
captured at task start, that buf_ is absent and ser_buf_size_ matches the
token, publish the read buffer, clear destroy_ptr_, and run
pulse_waiters_or_make_evictable.  block_token_ stays set. -/
def load_using_block_token_resume (pageDestroyed : Bool) (p : PageState)
    (tok : BlockToken) (readBuf : List Nat) : LoadOutcome :=
  if pageDestroyed then .cancelled
  else if p.blockToken ≠ some tok then .crashed
  else if p.buf.isSome then .crashed
  else if p.serBufSize ≠ tok.blockSize then .crashed
  else
    let p1 := { p with buf := some readBuf, destroyPtr := false }
    match pulse_waiters_or_make_evictable p1 with
    | none => .crashed
    | some (p2, ws) => .published p2 ws

/-- One step of the control flow of a load coroutine, as written in the source:
installing the cancel flag, taking the drainer lock, reading a field of
its own page, a suspension point, the single cancel-flag check, and the
publication section that writes the page. -/
inductive LoadStep where
  | setCancelFlag
  | acquireDrainerLock
  | readPageField
  | suspendPoint
  | checkCancelFlag
  | publishToPage
deriving DecidableEq

/-- Control flow of page_t::load_with_block_id: install destroy_ptr_, take
the drainer lock, then suspend at the buffer allocation, the migration to
the serializer thread, index_read, block_read and the migration back;
check page_destroyed once; publish. -/
def load_with_block_id_script : List LoadStep :=
  [.setCancelFlag, .acquireDrainerLock, .suspendPoint, .suspendPoint,
   .suspendPoint, .suspendPoint, .suspendPoint, .checkCancelFlag,
   .publishToPage]

/-- Control flow of page_t::load_from_copyee: install destroy_ptr_, take
the drainer lock (the copyee page_ptr_t and page_acq_t touch the copyee,
not this page), suspend at the ready signal of the copyee, check
page_destroyed once, publish. -/
def load_from_copyee_script : List LoadStep :=
  [.setCancelFlag, .acquireDrainerLock, .suspendPoint, .checkCancelFlag,
   .publishToPage]

/-- Control flow of page_t::load_using_block_token: install destroy_ptr_,
take the drainer lock, read block_token_ from the page, then suspend at
the buffer allocation, the migration to the serializer thread, block_read
and the migration back; check page_destroyed once; publish. -/
def load_using_block_token_script : List LoadStep :=
  [.setCancelFlag, .acquireDrainerLock, .readPageField, .suspendPoint,
   .suspendPoint, .suspendPoint, .suspendPoint, .checkCancelFlag,
   .publishToPage]

/-- The cancel flag is installed before the first suspension point. -/
def flag_set_before_first_suspension (s : List LoadStep) : Bool :=
  (s.takeWhile (fun x => x != .suspendPoint)).contains .setCancelFlag

/-- The cancel flag is checked exactly once, and no suspension point
follows the check. -/
def checks_flag_once_after_last_suspension (s : List LoadStep) : Bool :=
  s.count .checkCancelFlag == 1 &&
    (s.dropWhile (fun x => x != .checkCancelFlag)).count .suspendPoint == 0

/-- Between the final suspension and the flag check the task does not read
or write the page: every page access after the last suspension point
comes after the check. -/
def no_page_access_between_last_suspension_and_check
    (s : List LoadStep) : Bool :=
  ((s.dropWhile (fun x => x != .checkCancelFlag)).count .readPageField
      == s.count .readPageField
    || (s.takeWhile (fun x => x != .checkCancelFlag)).count .suspendPoint
      == s.count .suspendPoint) &&
  (s.dropWhile (fun x => x != .checkCancelFlag)).count .publishToPage
      == s.count .publishToPage

/-- page_ptr_t::init(page, page_cache) with a non-null page: bind and call
page_t::add_snapshotter. -/
def page_ptr_init (p : PageState) : PageState :=
  add_snapshotter p

/-- page_ptr_t::get_page_for_write(page_cache) on a pointer bound to page
p, composed from the source operations for the synchronous case.  When
snapshot_refcount_ is not above 1 the bound page itself is returned with
no state change.  Otherwise make_copy news a copy page (page_from_copyee)
whose load_from_copyee runs immediately: it takes a page_ptr_t on p
(add_snapshotter), attaches a page_acq_t (add_waiter with the fresh
identifier acq); when the buffer of p is present the ready signal is already
pulsed, so the task copies and publishes without suspending, then drops
the acquisition (remove_waiter) and its copyee pointer
(remove_snapshotter).  Back in get_page_for_write, the temporary
page_ptr_t binds the copy (add_snapshotter) and the move-assignment
releases the old binding to p (remove_snapshotter); the copy is returned.
The case where the buffer of p is absent (the copy publishes only after a
suspension) is outside this function and yields none. -/
def get_page_for_write (e : EvicterState) (acq : Nat) (p : PageState) :
    Option (PageState × Option PageState × Bool × EvicterState) :=
  if 1 < p.snapshotRefcount then
    let c0 := (page_from_copyee e).1
    let e1 := (page_from_copyee e).2
    let p1 := add_snapshotter p
    match add_waiter p1 acq with
    | none => none
    | some (p2, o) =>
      if o = .pulsed then
        match load_from_copyee_resume false c0 p2.serBufSize
            (p2.buf.getD []) with
        | .published c1 _ =>
          match remove_waiter p2 acq with
          | none => none
          | some p3 =>
            match remove_snapshotter p3 with
            | some (some p4, _) =>
              let c2 := add_snapshotter c1
              match remove_snapshotter p4 with
              | some (some p5, _) => some (p5, some c2, true, e1)
              | _ => none
            | _ => none
        | _ => none
      else none
  else some (p, none, false, e)

/-- The page states reachable through the operations of page.cc, starting
from the four page_t constructors: waiter registration, snapshot refcount
adjustment, the three load publications, eviction, and buffer access. -/
inductive Reachable : PageState → Prop where
  | fromBlockId (e : EvicterState) : Reachable (page_from_block_id e).1
  | fromBuf (e : EvicterState) (sz : Nat) (b : List Nat) :
      Reachable (page_from_buf e sz b).1
  | fromBufAndToken (e : EvicterState) (b : List Nat) (tok : BlockToken) :
      Reachable (page_from_buf_and_token e b tok).1
  | fromCopyee (e : EvicterState) : Reachable (page_from_copyee e).1
  | stepAddWaiter (p q : PageState) (acq : Nat) (o : AddWaiterOutcome) :
      Reachable p → add_waiter p acq = some (q, o) → Reachable q
  | stepRemoveWaiter (p q : PageState) (acq : Nat) :
      Reachable p → remove_waiter p acq = some q → Reachable q
  | stepAddSnapshotter (p : PageState) :
      Reachable p → Reachable (add_snapshotter p)
  | stepRemoveSnapshotter (p q : PageState) (evs : List DtorEvent) :
      Reachable p → remove_snapshotter p = some (some q, evs) → Reachable q
  | stepLoadBlockId (p q : PageState) (b : List Nat) (tok : BlockToken)
      (ws : List Nat) :
      Reachable p → load_with_block_id_resume false p b tok = .published q ws →
      Reachable q
  | stepLoadCopyee (p q : PageState) (sz : Nat) (b : List Nat)
      (ws : List Nat) :
      Reachable p → load_from_copyee_resume false p sz b = .published q ws →
      Reachable q
  | stepLoadToken (p q : PageState) (tok : BlockToken) (b : List Nat)
      (ws : List Nat) :
      Reachable p →
      load_using_block_token_resume false p tok b = .published q ws →
      Reachable q
  | stepEvict (p q : PageState) :
      Reachable p → evicter_evict_page p = some q → Reachable q
  | stepGetBufRead (e : EvicterState) (p q : PageState) (b : List Nat)
      (e2 : EvicterState) :
      Reachable p → get_buf_read e p = some (q, b, e2) → Reachable q
  | stepGetBufWrite (e : EvicterState) (p q : PageState) (b : List Nat)
      (e2 : EvicterState) :
      Reachable p → get_buf_write e p = some (q, b, e2) → Reachable q

lemma isEmpty_append_singleton (l : List Nat) (a : Nat) :
    (l ++ [a]).isEmpty = false := by
  cases l <;> rfl

lemma correct_ignores_bag (p : PageState) (b : EvictionBag) :
    correct_eviction_category { p with bag := b }
      = correct_eviction_category p := rfl

lemma correct_of_waiters_nonempty (p : PageState)
    (h : p.waiters.isEmpty = false) :
    correct_eviction_category p = .unevictable := by
  simp [correct_eviction_category, h]

lemma correct_of_destroy (p : PageState) (h : p.destroyPtr = true) :
    correct_eviction_category p = .unevictable := by
  simp [correct_eviction_category, h]

/-- C3: add_waiter appends acq to the waiter list and informs the evictor
of the bag change (the post-append bag equals the correct eviction
category of the post-append state), and then exactly one of four outcomes
occurs: buffer present — acq is pulsed immediately; else load in flight —
nothing further happens; else block token present — a
load-using-block-token task is dispatched (its cancel flag installed);
else the call is fatal. -/
theorem add_waiter_spec (p : PageState) (acq : Nat) :
    (add_waiter_listed p acq).waiters = p.waiters ++ [acq] ∧
    (add_waiter_listed p acq).bag
      = correct_eviction_category (add_waiter_listed p acq) ∧
    (p.buf.isSome = true →
      add_waiter p acq = some (add_waiter_listed p acq, .pulsed)) ∧
    (p.buf.isSome = false → p.destroyPtr = true →
      add_waiter p acq
        = some (add_waiter_listed p acq, .loadAlreadyInFlight)) ∧
    (p.buf.isSome = false → p.destroyPtr = false →
      p.blockToken.isSome = true →
      add_waiter p acq
        = some ({ add_waiter_listed p acq with destroyPtr := true },
            .dispatchedLoad)) ∧
    (p.buf.isSome = false → p.destroyPtr = false →
      p.blockToken.isSome = false → add_waiter p acq = none) := by
  refine ⟨rfl, rfl, ?_, ?_, ?_, ?_⟩
  · intro h
    simp [add_waiter, add_waiter_listed, h]
  · intro h h2
    simp [add_waiter, add_waiter_listed, h, h2]
  · intro h h2 h3
    simp [add_waiter, add_waiter_listed, h, h2, h3]
  · intro h h2 h3
    simp [add_waiter, add_waiter_listed, h, h2, h3]

/-- Witness for add_waiter_spec at a loaded page: the waiter is pulsed. -/
theorem add_waiter_spec_witness :
    add_waiter ⟨4, some [1, 2], none, 5, 1, [], false, .evictableUnbacked⟩ 7
      = some (⟨4, some [1, 2], none, 5, 1, [7], false, .unevictable⟩,
          .pulsed) := by
  have h := (add_waiter_spec
    ⟨4, some [1, 2], none, 5, 1, [], false, .evictableUnbacked⟩ 7).2.2.1
    (by decide)
  rw [h]
  rfl

/-- C5: every load task installs the cancel flag on its page before its first
suspension point; page_t::~page_t sets the task-local flag to true when a
load is outstanding; each task checks the flag exactly once, after its
final suspension and before any access to the page there; and when the
flag is true the resumption returns without reading or writing any page
field (the result is cancelled whatever the page state). -/
theorem load_cancellation_spec :
    (flag_set_before_first_suspension load_with_block_id_script = true ∧
     flag_set_before_first_suspension load_from_copyee_script = true ∧
     flag_set_before_first_suspension load_using_block_token_script
       = true) ∧
    (checks_flag_once_after_last_suspension load_with_block_id_script
       = true ∧
     checks_flag_once_after_last_suspension load_from_copyee_script
       = true ∧
     checks_flag_once_after_last_suspension load_using_block_token_script
       = true) ∧
    (no_page_access_between_last_suspension_and_check
       load_with_block_id_script = true ∧
     no_page_access_between_last_suspension_and_check
       load_from_copyee_script = true ∧
     no_page_access_between_last_suspension_and_check
       load_using_block_token_script = true) ∧
    (∀ (p : PageState) (f : Bool), p.destroyPtr = true →
      page_destructor_cancel_flag p f = true) ∧
    (∀ (p : PageState) (b : List Nat) (tok : BlockToken),
      load_with_block_id_resume true p b tok = .cancelled) ∧
    (∀ (p : PageState) (sz : Nat) (b : List Nat),
      load_from_copyee_resume true p sz b = .cancelled) ∧
    (∀ (p : PageState) (tok : BlockToken) (b : List Nat),
      load_using_block_token_resume true p tok b = .cancelled) := by
  refine ⟨by decide, by decide, by decide, ?_, ?_, ?_, ?_⟩
  · intro p f h
    simp [page_destructor_cancel_flag, h]
  · intro p b tok
    rfl
  · intro p sz b
    rfl
  · intro p tok b
    rfl

/-- Witness for load_cancellation_spec: the destructor of a page with a
load outstanding sets the cancel flag of the task. -/
theorem load_cancellation_spec_witness :
    page_destructor_cancel_flag
      ⟨0, none, none, 3, 1, [], true, .unevictable⟩ false = true :=
  load_cancellation_spec.2.2.2.1
    ⟨0, none, none, 3, 1, [], true, .unevictable⟩ false rfl

/-- C6: evict_self is fatal unless the waiter list is empty, a block token
is present and the buffer is present; when it runs, its sole effect is
dropping the buffer — block token, serialized size, snapshot refcount,
waiters and access time are unchanged, so the page keeps the token it
needs to reload. -/
theorem evict_self_spec (p : PageState) :
    (p.waiters = [] → p.blockToken.isSome = true → p.buf.isSome = true →
      evict_self p = some { p with buf := none }) ∧
    (p.waiters ≠ [] → evict_self p = none) ∧
    (p.blockToken.isSome = false → evict_self p = none) ∧
    (p.buf.isSome = false → evict_self p = none) ∧
    (∀ q : PageState, evict_self p = some q →
      q.buf = none ∧ q.blockToken = p.blockToken ∧
      q.serBufSize = p.serBufSize ∧
      q.snapshotRefcount = p.snapshotRefcount ∧
      q.waiters = p.waiters ∧ q.accessTime = p.accessTime ∧
      q.blockToken.isSome = true) := by
  obtain ⟨sz, b, tok, t, rc, ws, dp, bag⟩ := p
  refine ⟨?_, ?_, ?_, ?_, ?_⟩
  · intro h1 h2 h3
    cases b <;> cases tok <;> cases ws <;>
      simp_all [evict_self]
  · intro h1
    cases ws <;> simp_all [evict_self]
  · intro h1
    cases b <;> cases tok <;> cases ws <;> simp_all [evict_self]
  · intro h1
    cases b <;> cases tok <;> cases ws <;> simp_all [evict_self]
  · intro q hq
    cases b <;> cases tok <;> cases ws <;> simp_all [evict_self]
    subst hq
    simp

/-- Witness for evict_self_spec at a loaded disk-backed page. -/
theorem evict_self_spec_witness :
    evict_self ⟨4, some [1, 2], some ⟨4⟩, 5, 2, [], false,
        .evictableDiskBacked⟩
      = some ⟨4, none, some ⟨4⟩, 5, 2, [], false, .evictableDiskBacked⟩ :=
  (evict_self_spec _).1 rfl rfl rfl

/-- C7: once the buffer is ready, get_buf_read and get_buf_write both
return the buffer contents and set access_time to the next evictor
access time; get_buf_write additionally drops the block token and is
fatal when the waiter list is empty, while get_buf_read leaves the block
token unchanged. -/
theorem get_buf_access_spec (e : EvicterState) (p : PageState)
    (b : List Nat) :
    p.buf = some b →
    (get_buf_read e p
        = some ({ p with accessTime := (e.nextAccessTime).1 }, b,
            (e.nextAccessTime).2)) ∧
    (({ p with accessTime := (e.nextAccessTime).1 } : PageState).blockToken
        = p.blockToken) ∧
    (p.waiters ≠ [] →
      get_buf_write e p
        = some ({ p with blockToken := none,
                         accessTime := (e.nextAccessTime).1 }, b,
            (e.nextAccessTime).2)) ∧
    (p.waiters = [] → get_buf_write e p = none) := by
  intro hb
  refine ⟨?_, rfl, ?_, ?_⟩
  · simp [get_buf_read, get_page_buf, hb]
  · intro hw
    have hwe : p.waiters.isEmpty = false := by
      cases hww : p.waiters with
      | nil => exact absurd hww hw
      | cons a l => rfl
    simp [get_buf_write, reset_block_token, get_page_buf, hb, hwe]
  · intro hw
    have hwe : p.waiters.isEmpty = true := by
      rw [hw]
      rfl
    simp [get_buf_write, reset_block_token, hwe]

/-- Witness for get_buf_access_spec at a loaded page with one waiter. -/
theorem get_buf_access_spec_witness :
    get_buf_read ⟨8, 8⟩ ⟨2, some [3, 4], some ⟨2⟩, 5, 1, [7], false,
        .unevictable⟩
      = some (⟨2, some [3, 4], some ⟨2⟩, 9, 1, [7], false,
          .unevictable⟩, [3, 4], ⟨8, 9⟩) :=
  (get_buf_access_spec ⟨8, 8⟩
    ⟨2, some [3, 4], some ⟨2⟩, 5, 1, [7], false, .unevictable⟩
    [3, 4] rfl).1

/-- C8: remove_snapshotter is fatal when the count is already zero; when
it runs, the page is destroyed exactly when the count reaches zero, at
which moment the waiter list must be empty and the page is removed from
its evictor bag before deletion; otherwise the page survives with the
count decremented by one. -/
theorem remove_snapshotter_spec (p : PageState) :
    (p.snapshotRefcount = 0 → remove_snapshotter p = none) ∧
    (∀ (q : Option PageState) (evs : List DtorEvent),
      remove_snapshotter p = some (q, evs) →
      ((q = none ↔ p.snapshotRefcount = 1) ∧
       (q = none → p.waiters = [] ∧
         evs = [DtorEvent.removePageFromBag, DtorEvent.deletePage]))) ∧
    (p.snapshotRefcount = 1 → p.waiters ≠ [] →
      remove_snapshotter p = none) ∧
    (∀ (q : PageState) (evs : List DtorEvent),
      remove_snapshotter p = some (some q, evs) →
      q = { p with snapshotRefcount := p.snapshotRefcount - 1 } ∧
      evs = []) := by
  refine ⟨?_, ?_, ?_, ?_⟩
  · intro h
    simp [remove_snapshotter, h]
  · intro q evs h
    unfold remove_snapshotter at h
    by_cases h0 : p.snapshotRefcount = 0
    · simp [h0] at h
    · by_cases h1 : p.snapshotRefcount - 1 = 0
      · have h1' : p.snapshotRefcount = 1 := by omega
        by_cases hw : p.waiters.isEmpty
        · simp [h0, h1, hw] at h
          obtain ⟨hq, hevs⟩ := h
          subst hq
          subst hevs
          refine ⟨by simp [h1'], ?_⟩
          intro _
          exact ⟨List.isEmpty_iff.mp hw, rfl⟩
        · simp [h0, h1, hw] at h
      · simp [h0, h1] at h
        obtain ⟨hq, hevs⟩ := h
        subst hq
        subst hevs
        constructor
        · constructor
          · intro hc
            simp at hc
          · intro hc
            omega
        · intro hc
          simp at hc
  · intro h1 hw
    have hwe : p.waiters.isEmpty = false := by
      cases hww : p.waiters with
      | nil => exact absurd hww hw
      | cons a l => rfl
    simp [remove_snapshotter, h1, hwe]
  · intro q evs h
    unfold remove_snapshotter at h
    by_cases h0 : p.snapshotRefcount = 0
    · simp [h0] at h
    · by_cases h1 : p.snapshotRefcount - 1 = 0
      · by_cases hw : p.waiters.isEmpty <;> simp [h0, h1, hw] at h
      · simp [h0, h1] at h
        obtain ⟨hq, hevs⟩ := h
        exact ⟨hq.symm, hevs⟩

/-- Witness for remove_snapshotter_spec: calling it with the refcount
already zero is fatal. -/
theorem remove_snapshotter_spec_witness :
    remove_snapshotter ⟨4, some [1], some ⟨4⟩, 5, 0, [], false,
        .evictableDiskBacked⟩ = none :=
  (remove_snapshotter_spec
    ⟨4, some [1], some ⟨4⟩, 5, 0, [], false, .evictableDiskBacked⟩).1 rfl

/-- C9: the read-ahead constructor is the only one whose access time is
the READ_AHEAD_ACCESS_TIME sentinel, which is INITIAL_ACCESS_TIME - 1 in
wrapping 64-bit unsigned arithmetic (one below the initial counter, and
2^64 - 1 when the initial value is zero); the other three constructors
take their access time from next_access_time of the evictor. -/
theorem access_time_init_spec (e : EvicterState) (b : List Nat)
    (tok : BlockToken) (sz : Nat) :
    (page_from_buf_and_token e b tok).1.accessTime
        = READ_AHEAD_ACCESS_TIME e.initialAccessTime ∧
    (0 < e.initialAccessTime → e.initialAccessTime < u64Mod →
      READ_AHEAD_ACCESS_TIME e.initialAccessTime
        = e.initialAccessTime - 1) ∧
    READ_AHEAD_ACCESS_TIME 0 = u64Mod - 1 ∧
    (page_from_block_id e).1.accessTime = (e.nextAccessTime).1 ∧
    (page_from_buf e sz b).1.accessTime = (e.nextAccessTime).1 ∧
    (page_from_copyee e).1.accessTime = (e.nextAccessTime).1 := by
  refine ⟨rfl, ?_, ?_, rfl, rfl, rfl⟩
  · intro h1 h2
    have hm : u64Mod = 18446744073709551616 := by
      norm_num [u64Mod]
    rw [READ_AHEAD_ACCESS_TIME, hm]
    rw [hm] at h2
    omega
  · have hm : u64Mod = 18446744073709551616 := by
      norm_num [u64Mod]
    rw [READ_AHEAD_ACCESS_TIME, hm]

/-- Witness for access_time_init_spec with initial counter 100: the
sentinel is 99. -/
theorem access_time_init_spec_witness :
    READ_AHEAD_ACCESS_TIME (100 : Nat) = 99 :=
  (access_time_init_spec ⟨100, 100⟩ [] ⟨1⟩ 0).2.1 (by decide)
    (by norm_num [u64Mod])

/-- C10: all four page_t constructors initialize snapshot_refcount_ to 0;
the count first becomes 1 when a page_ptr_t adopts the page through init
(add_snapshotter), so a freshly constructed page is registered with the
evictor while holding refcount 0. -/
theorem snapshot_refcount_init_spec (e : EvicterState) (sz : Nat)
    (b : List Nat) (tok : BlockToken) (p : PageState) :
    (page_from_block_id e).1.snapshotRefcount = 0 ∧
    (page_from_buf e sz b).1.snapshotRefcount = 0 ∧
    (page_from_buf_and_token e b tok).1.snapshotRefcount = 0 ∧
    (page_from_copyee e).1.snapshotRefcount = 0 ∧
    (page_ptr_init p).snapshotRefcount = p.snapshotRefcount + 1 ∧
    (page_ptr_init (page_from_block_id e).1).snapshotRefcount = 1 ∧
    (page_ptr_init (page_from_buf e sz b).1).snapshotRefcount = 1 ∧
    (page_ptr_init
        (page_from_buf_and_token e b tok).1).snapshotRefcount = 1 ∧
    (page_ptr_init (page_from_copyee e).1).snapshotRefcount = 1 :=
  ⟨rfl, rfl, rfl, rfl, rfl, rfl, rfl, rfl, rfl⟩


lemma resume_published_pulse_block_id (p q : PageState) (b : List Nat)
    (tok : BlockToken) (ws : List Nat)
    (h : load_with_block_id_resume false p b tok = .published q ws) :
    pulse_waiters_or_make_evictable
      { p with serBufSize := tok.blockSize, buf := some b,
               blockToken := some tok, destroyPtr := false }
      = some (q, ws) := by
  unfold load_with_block_id_resume at h
  rw [if_neg (by simp)] at h
  by_cases h1 : p.blockToken.isSome
  · rw [if_pos h1] at h
    exact absurd h (by simp)
  · rw [if_neg h1] at h
    by_cases h2 : p.buf.isSome
    · rw [if_pos h2] at h
      exact absurd h (by simp)
    · rw [if_neg h2] at h
      dsimp only at h
      cases hp : pulse_waiters_or_make_evictable
          { p with serBufSize := tok.blockSize, buf := some b,
                   blockToken := some tok, destroyPtr := false } with
      | none =>
        rw [hp] at h
        exact absurd h (by simp)
      | some pr =>
        obtain ⟨p2, ws2⟩ := pr
        rw [hp] at h
        simp only [LoadOutcome.published.injEq] at h
        obtain ⟨hq, hws⟩ := h
        subst hq
        subst hws
        rfl

lemma resume_published_pulse_copyee (p q : PageState) (sz : Nat)
    (b : List Nat) (ws : List Nat)
    (h : load_from_copyee_resume false p sz b = .published q ws) :
    pulse_waiters_or_make_evictable
      { p with serBufSize := sz, buf := some (b.take sz),
               destroyPtr := false }
      = some (q, ws) := by
  unfold load_from_copyee_resume at h
  rw [if_neg (by simp)] at h
  dsimp only at h
  cases hp : pulse_waiters_or_make_evictable
      { p with serBufSize := sz, buf := some (b.take sz),
               destroyPtr := false } with
  | none =>
    rw [hp] at h
    exact absurd h (by simp)
  | some pr =>
    obtain ⟨p2, ws2⟩ := pr
    rw [hp] at h
    simp only [LoadOutcome.published.injEq] at h
    obtain ⟨hq, hws⟩ := h
    subst hq
    subst hws
    rfl

lemma resume_published_pulse_token (p q : PageState) (tok : BlockToken)
    (b : List Nat) (ws : List Nat)
    (h : load_using_block_token_resume false p tok b = .published q ws) :
    pulse_waiters_or_make_evictable
      { p with buf := some b, destroyPtr := false }
      = some (q, ws) := by
  unfold load_using_block_token_resume at h
  rw [if_neg (by simp)] at h
  by_cases h1 : p.blockToken = some tok
  · rw [if_neg (by simp [h1])] at h
    by_cases h2 : p.buf.isSome
    · rw [if_pos h2] at h
      exact absurd h (by simp)
    · rw [if_neg h2] at h
      by_cases h3 : p.serBufSize = tok.blockSize
      · rw [if_neg (by simp [h3])] at h
        dsimp only at h
        cases hp : pulse_waiters_or_make_evictable
            { p with buf := some b, destroyPtr := false } with
        | none =>
          rw [hp] at h
          exact absurd h (by simp)
        | some pr =>
          obtain ⟨p2, ws2⟩ := pr
          rw [hp] at h
          simp only [LoadOutcome.published.injEq] at h
          obtain ⟨hq, hws⟩ := h
          subst hq
          subst hws
          rfl
      · rw [if_pos (by simp [h3])] at h
        exact absurd h (by simp)
  · rw [if_pos (by simp [h1])] at h
    exact absurd h (by simp)

lemma pulse_published_cases (p1 q : PageState) (ws : List Nat)
    (hb : p1.buf.isSome = true) (hd : p1.destroyPtr = false)
    (h : pulse_waiters_or_make_evictable p1 = some (q, ws)) :
    (p1.waiters ≠ [] → ws = p1.waiters ∧ q.waiters = p1.waiters ∧
      q.bag = .unevictable) ∧
    (p1.waiters = [] → ws = [] ∧ q.bag = correct_eviction_category q ∧
      (q.bag = .evictableDiskBacked ∨ q.bag = .evictableUnbacked)) := by
  unfold pulse_waiters_or_make_evictable at h
  by_cases hbag : p1.bag = EvictionBag.unevictable
  · rw [if_neg (by simp [hbag])] at h
    by_cases hw : p1.waiters.isEmpty
    · rw [if_pos hw] at h
      simp only [Option.some.injEq, Prod.mk.injEq] at h
      obtain ⟨hq, hws⟩ := h
      subst hq
      subst hws
      constructor
      · intro hne
        exact absurd (List.isEmpty_iff.mp hw) hne
      · intro hnil
        refine ⟨rfl, rfl, ?_⟩
        cases hbuf : p1.buf with
        | none =>
          rw [hbuf] at hb
          exact absurd hb (by simp)
        | some v =>
          by_cases ht : p1.blockToken.isSome
          · left
            simp [correct_eviction_category, hd, hw, hbuf, ht]
          · right
            simp [correct_eviction_category, hd, hw, hbuf, ht]
    · rw [if_neg hw] at h
      simp only [Option.some.injEq, Prod.mk.injEq] at h
      obtain ⟨hq, hws⟩ := h
      subst hq
      subst hws
      constructor
      · intro hne
        exact ⟨rfl, rfl, hbag⟩
      · intro hnil
        rw [hnil] at hw
        exact absurd rfl hw
  · rw [if_pos hbag] at h
    exact Option.noConfusion h

/-- C4: when any of the three load tasks publishes the buffer (the cancel
flag is cleared), then if the waiter list is non-empty every waiter is
pulsed in waiter-list insertion order (the pulsed list is exactly the
waiter list) and the page stays in the unevictable bag; if the waiter
list is empty nothing is pulsed and the page is moved from the
unevictable bag to the appropriate evictable bag (the correct eviction
category of its new state, an evictable one). -/
theorem load_completion_pulse_spec :
    (∀ (p q : PageState) (b : List Nat) (tok : BlockToken)
        (ws : List Nat),
      load_with_block_id_resume false p b tok = .published q ws →
      ((p.waiters ≠ [] → ws = p.waiters ∧ q.waiters = p.waiters ∧
          q.bag = .unevictable) ∧
       (p.waiters = [] → ws = [] ∧ q.bag = correct_eviction_category q ∧
          (q.bag = .evictableDiskBacked ∨
           q.bag = .evictableUnbacked)))) ∧
    (∀ (p q : PageState) (sz : Nat) (b : List Nat) (ws : List Nat),
      load_from_copyee_resume false p sz b = .published q ws →
      ((p.waiters ≠ [] → ws = p.waiters ∧ q.waiters = p.waiters ∧
          q.bag = .unevictable) ∧
       (p.waiters = [] → ws = [] ∧ q.bag = correct_eviction_category q ∧
          (q.bag = .evictableDiskBacked ∨
           q.bag = .evictableUnbacked)))) ∧
    (∀ (p q : PageState) (tok : BlockToken) (b : List Nat)
        (ws : List Nat),
      load_using_block_token_resume false p tok b = .published q ws →
      ((p.waiters ≠ [] → ws = p.waiters ∧ q.waiters = p.waiters ∧
          q.bag = .unevictable) ∧
       (p.waiters = [] → ws = [] ∧ q.bag = correct_eviction_category q ∧
          (q.bag = .evictableDiskBacked ∨
           q.bag = .evictableUnbacked)))) := by
  refine ⟨?_, ?_, ?_⟩
  · intro p q b tok ws h
    exact pulse_published_cases
      { p with serBufSize := tok.blockSize, buf := some b,
               blockToken := some tok, destroyPtr := false }
      q ws rfl rfl (resume_published_pulse_block_id p q b tok ws h)
  · intro p q sz b ws h
    exact pulse_published_cases
      { p with serBufSize := sz, buf := some (b.take sz),
               destroyPtr := false }
      q ws rfl rfl (resume_published_pulse_copyee p q sz b ws h)
  · intro p q tok b ws h
    exact pulse_published_cases
      { p with buf := some b, destroyPtr := false }
      q ws rfl rfl (resume_published_pulse_token p q tok b ws h)

/-- Witness for load_completion_pulse_spec: a cold-load publication with
two waiters pulses exactly those two waiters in order and leaves the page
unevictable. -/
theorem load_completion_pulse_spec_witness :
    ([3, 5] : List Nat)
        = (⟨0, none, none, 9, 1, [3, 5], true, .unevictable⟩
            : PageState).waiters ∧
    (⟨4, some [1, 2], some ⟨4⟩, 9, 1, [3, 5], false, .unevictable⟩
        : PageState).bag = .unevictable := by
  have h := (load_completion_pulse_spec.1
    ⟨0, none, none, 9, 1, [3, 5], true, .unevictable⟩
    ⟨4, some [1, 2], some ⟨4⟩, 9, 1, [3, 5], false, .unevictable⟩
    [1, 2] ⟨4⟩ [3, 5] (by decide)).1 (by decide)
  exact ⟨h.1.symm, h.2.2⟩

lemma correct_congr (q p : PageState) (hd : q.destroyPtr = p.destroyPtr)
    (hw : q.waiters = p.waiters) (hb : q.buf.isNone = p.buf.isNone)
    (ht : q.blockToken.isSome = p.blockToken.isSome) :
    correct_eviction_category q = correct_eviction_category p := by
  rw [correct_eviction_category, correct_eviction_category, hd, hw, hb, ht]

lemma bag_correct_add_waiter (p q : PageState) (acq : Nat)
    (o : AddWaiterOutcome) (h : add_waiter p acq = some (q, o)) :
    q.bag = correct_eviction_category q := by
  unfold add_waiter at h
  by_cases hb : (add_waiter_listed p acq).buf.isSome
  · rw [if_pos hb] at h
    simp only [Option.some.injEq, Prod.mk.injEq] at h
    obtain ⟨hq, -⟩ := h
    subst hq
    rfl
  · rw [if_neg hb] at h
    by_cases hd : (add_waiter_listed p acq).destroyPtr
    · rw [if_pos hd] at h
      simp only [Option.some.injEq, Prod.mk.injEq] at h
      obtain ⟨hq, -⟩ := h
      subst hq
      rfl
    · rw [if_neg hd] at h
      by_cases ht : (add_waiter_listed p acq).blockToken.isSome
      · rw [if_pos ht] at h
        simp only [Option.some.injEq, Prod.mk.injEq] at h
        obtain ⟨hq, -⟩ := h
        subst hq
        rw [correct_of_destroy
          { add_waiter_listed p acq with destroyPtr := true } rfl]
        exact correct_of_waiters_nonempty
          { p with waiters := p.waiters ++ [acq] }
          (isEmpty_append_singleton p.waiters acq)
      · rw [if_neg ht] at h
        exact Option.noConfusion h

lemma bag_correct_remove_waiter (p q : PageState) (acq : Nat)
    (h : remove_waiter p acq = some q) :
    q.bag = correct_eviction_category q := by
  unfold remove_waiter at h
  by_cases h0 : p.snapshotRefcount = 0
  · rw [if_pos h0] at h
    exact Option.noConfusion h
  · rw [if_neg h0] at h
    simp only [Option.some.injEq] at h
    subst h
    rfl

lemma bag_correct_pulse (p1 q : PageState) (ws : List Nat)
    (h : pulse_waiters_or_make_evictable p1 = some (q, ws)) :
    q.bag = correct_eviction_category q := by
  unfold pulse_waiters_or_make_evictable at h
  by_cases hbag : p1.bag = EvictionBag.unevictable
  · rw [if_neg (by simp [hbag])] at h
    by_cases hw : p1.waiters.isEmpty
    · rw [if_pos hw] at h
      simp only [Option.some.injEq, Prod.mk.injEq] at h
      obtain ⟨hq, -⟩ := h
      subst hq
      rfl
    · rw [if_neg hw] at h
      simp only [Option.some.injEq, Prod.mk.injEq] at h
      obtain ⟨hq, -⟩ := h
      subst hq
      rw [hbag]
      exact (correct_of_waiters_nonempty p1 (by simpa using hw)).symm
  · rw [if_pos hbag] at h
    exact Option.noConfusion h

/-- C1: every page state reachable through the operations of page.cc sits
in exactly one evictor bag, and that bag is the correct
eviction category of the observable page state (buffer present, block
token present, waiters empty, load in flight) — after construction,
add_waiter, remove_waiter, load completion, eviction, refcount changes
and buffer accesses alike. -/
theorem bag_invariant_of_reachable (p : PageState) (h : Reachable p) :
    p.bag = correct_eviction_category p := by
  induction h with
  | fromBlockId e => rfl
  | fromBuf e sz b => rfl
  | fromBufAndToken e b tok => rfl
  | fromCopyee e => rfl
  | stepAddWaiter p q acq o hr heq ih =>
    exact bag_correct_add_waiter p q acq o heq
  | stepRemoveWaiter p q acq hr heq ih =>
    exact bag_correct_remove_waiter p q acq heq
  | stepAddSnapshotter p hr ih =>
    exact ih
  | stepRemoveSnapshotter p q evs hr heq ih =>
    unfold remove_snapshotter at heq
    by_cases h0 : p.snapshotRefcount = 0
    · simp [h0] at heq
    · by_cases h1 : p.snapshotRefcount - 1 = 0
      · by_cases hw : p.waiters.isEmpty <;> simp [h0, h1, hw] at heq
      · simp only [h0, h1, if_neg, if_false, Option.some.injEq,
          Prod.mk.injEq] at heq
        obtain ⟨hq, -⟩ := heq
        subst hq
        exact ih
  | stepLoadBlockId p q b tok ws hr heq ih =>
    exact bag_correct_pulse _ q ws
      (resume_published_pulse_block_id p q b tok ws heq)
  | stepLoadCopyee p q sz b ws hr heq ih =>
    exact bag_correct_pulse _ q ws
      (resume_published_pulse_copyee p q sz b ws heq)
  | stepLoadToken p q tok b ws hr heq ih =>
    exact bag_correct_pulse _ q ws
      (resume_published_pulse_token p q tok b ws heq)
  | stepEvict p q hr heq ih =>
    unfold evicter_evict_page at heq
    by_cases hbag : p.bag = EvictionBag.evictableDiskBacked
    · rw [if_neg (by simp [hbag])] at heq
      have hc : correct_eviction_category p
          = EvictionBag.evictableDiskBacked := ih.symm.trans hbag
      by_cases hd : p.destroyPtr
      · rw [correct_of_destroy p hd] at hc
        exact absurd hc (by decide)
      · by_cases hw : p.waiters.isEmpty
        · unfold evict_self at heq
          rw [if_neg (by simp [hw])] at heq
          by_cases hbuf : p.buf.isNone
          · rw [correct_eviction_category] at hc
            rw [if_neg (by simp [hd, hw]), if_pos hbuf] at hc
            exact absurd hc (by decide)
          · by_cases ht : p.blockToken.isNone
            · rw [if_pos ht] at heq
              exact Option.noConfusion heq
            · rw [if_neg ht, if_neg hbuf] at heq
              simp only [Option.map_some', Option.some.injEq] at heq
              subst heq
              show EvictionBag.evicted = _
              rw [correct_eviction_category]
              rw [if_neg (by simp [hd, hw])]
              rfl
        · rw [correct_of_waiters_nonempty p (by simpa using hw)] at hc
          exact absurd hc (by decide)
    · rw [if_pos hbag] at heq
      exact Option.noConfusion heq
  | stepGetBufRead e p q b e2 hr heq ih =>
    unfold get_buf_read get_page_buf at heq
    cases hbuf : p.buf with
    | none =>
      rw [hbuf] at heq
      exact Option.noConfusion heq
    | some v =>
      rw [hbuf] at heq
      simp only [Option.some.injEq, Prod.mk.injEq] at heq
      obtain ⟨hq, -⟩ := heq
      subst hq
      exact ih.trans (correct_congr
        { p with buf := some v, accessTime := e.nextAccessTime.1 } p
        rfl rfl (by rw [hbuf]) rfl).symm
  | stepGetBufWrite e p q b e2 hr heq ih =>
    unfold get_buf_write reset_block_token at heq
    by_cases hw : p.waiters.isEmpty
    · rw [if_pos hw] at heq
      exact Option.noConfusion heq
    · rw [if_neg hw] at heq
      rw [Option.some_bind] at heq
      unfold get_page_buf at heq
      cases hbuf : p.buf with
      | none =>
        rw [show ({ p with blockToken := none } : PageState).buf = p.buf
          from rfl, hbuf] at heq
        exact Option.noConfusion heq
      | some v =>
        rw [show ({ p with blockToken := none } : PageState).buf = p.buf
          from rfl, hbuf] at heq
        simp only [Option.some.injEq, Prod.mk.injEq] at heq
        obtain ⟨hq, -⟩ := heq
        subst hq
        show p.bag = _
        rw [correct_of_waiters_nonempty _ (by simpa using hw)]
        rw [ih]
        exact correct_of_waiters_nonempty p (by simpa using hw)

/-- Witness for bag_invariant_of_reachable: a freshly constructed
unbacked page is recorded in its correct bag. -/
theorem bag_invariant_witness :
    (page_from_buf ⟨8, 8⟩ 4 [1, 2, 3, 4]).1.bag
      = correct_eviction_category (page_from_buf ⟨8, 8⟩ 4 [1, 2, 3, 4]).1 :=
  bag_invariant_of_reachable (page_from_buf ⟨8, 8⟩ 4 [1, 2, 3, 4]).1
    (Reachable.fromBuf ⟨8, 8⟩ 4 [1, 2, 3, 4])


lemma erase_append_singleton_of_not_mem (l : List Nat) (a : Nat)
    (h : a ∉ l) : (l ++ [a]).erase a = l := by
  rw [List.erase_append_right _ h, List.erase_cons_head, List.append_nil]

/-- C2: page_ptr_t::get_page_for_write on a pointer bound to page p.  With
snapshot_refcount 1 it returns p itself with no state change.  With a
refcount above 1 (and p loaded, so the copy publishes synchronously) it
creates a copy via make_copy, rebinds the pointer to the copy and returns
it: p ends with exactly one reference fewer and its buffer, waiters,
token, size, access time and load flag unchanged, while the copy holds
refcount 1 (the rebound pointer) and a copy of the buffer contents of p. -/
theorem get_page_for_write_cow_spec (e : EvicterState) (acq : Nat)
    (p : PageState) :
    (p.snapshotRefcount = 1 →
      get_page_for_write e acq p = some (p, none, false, e)) ∧
    (∀ b : List Nat, 1 < p.snapshotRefcount → p.buf = some b →
      acq ∉ p.waiters →
      ∃ (q c : PageState) (e2 : EvicterState),
        get_page_for_write e acq p = some (q, some c, true, e2) ∧
        q.snapshotRefcount = p.snapshotRefcount - 1 ∧
        q.buf = p.buf ∧ q.waiters = p.waiters ∧
        q.blockToken = p.blockToken ∧ q.serBufSize = p.serBufSize ∧
        q.destroyPtr = p.destroyPtr ∧ q.accessTime = p.accessTime ∧
        c.snapshotRefcount = 1 ∧
        c.buf = some (b.take p.serBufSize)) := by
  constructor
  · intro h1
    unfold get_page_for_write
    rw [if_neg (by omega)]
  · intro b hrc hbuf hfresh
    obtain ⟨k, hk⟩ : ∃ k, p.snapshotRefcount = k + 2 :=
      ⟨p.snapshotRefcount - 2, by omega⟩
    obtain ⟨sz, pbuf, ptok, pat, prc, pw, pdp, pbag⟩ := p
    dsimp only at hbuf hk hfresh hrc ⊢
    subst hbuf
    subst hk
    unfold get_page_for_write
    rw [if_pos hrc]
    refine ⟨⟨sz, some b, ptok, pat, k + 1, (pw ++ [acq]).erase acq, pdp,
        correct_eviction_category
          ⟨sz, some b, ptok, pat, k + 3, (pw ++ [acq]).erase acq, pdp,
            correct_eviction_category
              ⟨sz, some b, ptok, pat, k + 3, pw ++ [acq], pdp, pbag⟩⟩⟩,
      ⟨sz, some (b.take sz), none, (e.nextAccessTime).1, 1, [], false,
        .evictableUnbacked⟩,
      (e.nextAccessTime).2, ?_, ?_, rfl, ?_, rfl, rfl, rfl, rfl, rfl, rfl⟩
    · rfl
    · show k + 1 = k + 2 - 1
      omega
    · show (pw ++ [acq]).erase acq = pw
      exact erase_append_singleton_of_not_mem pw acq hfresh

/-- Witness for get_page_for_write_cow_spec: a copy-on-write on a loaded
page with two snapshot references. -/
theorem get_page_for_write_cow_spec_witness :
    ∃ (q c : PageState) (e2 : EvicterState),
      get_page_for_write ⟨8, 8⟩ 7
          ⟨4, some [1, 2, 3, 4], none, 5, 2, [], false,
            .evictableUnbacked⟩
        = some (q, some c, true, e2) ∧
      q.snapshotRefcount = 1 ∧
      q.buf = some [1, 2, 3, 4] ∧ q.waiters = ([] : List Nat) ∧
      q.blockToken = none ∧ q.serBufSize = 4 ∧
      q.destroyPtr = false ∧ q.accessTime = 5 ∧
      c.snapshotRefcount = 1 ∧
      c.buf = some ([1, 2, 3, 4].take 4) :=
  (get_page_for_write_cow_spec ⟨8, 8⟩ 7
    ⟨4, some [1, 2, 3, 4], none, 5, 2, [], false,
      .evictableUnbacked⟩).2 [1, 2, 3, 4] (by decide) rfl (by decide)

end Alt
